import Mathlib

/-!
Verification of the piano keyboard screen
(`src/frontend/app/screens/HomeScreen.tsx`).

The file shallowly embeds the two algorithmic cores of the screen:

* the keyboard layout builder (`NOTE_ORDER`, `OCTAVES`,
  `blackPositionInOctave`, `midiNumber`, `frequencyFromMidi`,
  `buildPianoKeys`), and
* the tone engine (`ensureAudioContext`, `playNote`, the unmount
  cleanup `shutdownModel`), modelled as a state machine over
  `EngineUIState` together with the trace of Web Audio API calls a note
  activation emits.

JavaScript numbers are embedded as `ℤ` (MIDI indices), `ℚ` (layout
offsets and schedule times, all of which are exact decimal literals in
the source) and `ℝ` (frequencies, which involve `2 ^ (x / 12)`).
-/

namespace Piano

/-- The twelve canonical pitch-class names, in the fixed order used by
the source's `NOTE_ORDER` constant. -/
def NOTE_ORDER : List String :=
  ["C", "C#", "D", "D#", "E", "F"]
    ++ ["F#", "G", "G#", "A", "A#", "B"]

/-- The source's `OCTAVES` constant: the three configured octaves. -/
def OCTAVES : List ℕ := [3, 4, 5]

/-- JavaScript `Array.prototype.indexOf`: the index of the first
occurrence, and `-1` when the element is absent. -/
def jsIndexOf (l : List String) (x : String) : ℤ :=
  match l.findIdx? (fun y => y == x) with
  | some i => (i : ℤ)
  | none => -1

/-- The source's `blackPositionInOctave`: position of a raised key
within an octave in white-key-width units; the `switch` falls through
to `0` for any other string, so the function is total. -/
def blackPositionInOctave (step : String) : ℚ :=
  if step = "C#" then 0.75
  else if step = "D#" then 1.75
  else if step = "F#" then 3.75
  else if step = "G#" then 4.75
  else if step = "A#" then 5.75
  else 0

/-- The source's `midiNumber`: `12 * (octave + 1) + indexInOctave`,
with `NOTE_ORDER.indexOf` giving `-1` for a name outside the list. -/
def midiNumber (note : String) (octave : ℕ) : ℤ :=
  12 * ((octave : ℤ) + 1) + jsIndexOf NOTE_ORDER note

/-- The source's `frequencyFromMidi`: equal-temperament frequency
`440 * 2 ^ ((midi - 69) / 12)`. -/
noncomputable def frequencyFromMidi (midi : ℤ) : ℝ :=
  440 * (2 : ℝ) ^ (((midi : ℝ) - 69) / 12)

/-- The `PianoKey` record of the source.  The source stores the
already-computed `frequency`; since the stored value is always
`frequencyFromMidi` of the key's MIDI number (the only real-valued,
hence non-decidable, field), the embedding stores the MIDI number and
recovers `frequency` through `PianoKey.frequency` below.  `whiteIndex`
and `positionInWhiteUnits` are the two optional fields. -/
structure PianoKey where
  name : String
  label : String
  midi : ℤ
  isSharp : Bool
  whiteIndex : Option ℕ := none
  positionInWhiteUnits : Option ℚ := none
deriving DecidableEq, Repr

/-- The `frequency` field of a generated key. -/
noncomputable def PianoKey.frequency (k : PianoKey) : ℝ :=
  frequencyFromMidi k.midi

/-- Placeholder key used as the default of `List.getD` lookups. -/
def dummyKey : PianoKey :=
  { name := "", label := "", midi := 0, isSharp := false }

/-- Body of the inner `NOTE_ORDER.forEach` loop of `buildPianoKeys`:
given the current octave and its 0-based index in `OCTAVES`, push one
key and update the shared `globalWhiteIndex` counter.  (The source also
keeps a `whiteIndexInOctave` counter that it increments but never
reads; it is omitted.) -/
def pushNote (octave : ℕ) (octaveIdx : ℕ) (acc : List PianoKey × ℕ)
    (noteName : String) : List PianoKey × ℕ :=
  let keys := acc.1
  let globalWhiteIndex := acc.2
  let isSharp := noteName.data.contains '#'
  let midi := midiNumber noteName octave
  let fullName := noteName ++ toString octave
  if isSharp then
    let posInOctave := blackPositionInOctave noteName
    let positionInWhiteUnits : ℚ := (octaveIdx : ℚ) * 7 + posInOctave
    (keys ++ [{ name := fullName, label := noteName, midi := midi,
                isSharp := true,
                positionInWhiteUnits := some positionInWhiteUnits }],
     globalWhiteIndex)
  else
    (keys ++ [{ name := fullName, label := noteName, midi := midi,
                isSharp := false, whiteIndex := some globalWhiteIndex }],
     globalWhiteIndex + 1)

/-- The source's `buildPianoKeys`: iterate over `OCTAVES` (with index)
and, inside each octave, over `NOTE_ORDER`, threading the key list and
the shared `globalWhiteIndex` counter. -/
def buildPianoKeys : List PianoKey :=
  (OCTAVES.enum.foldl
    (fun acc p => NOTE_ORDER.foldl (pushNote p.2 p.1) acc)
    ([], 0)).1

/-- The five fixed raised-key offsets as the spec states them
(`C#→0.75, D#→1.75, F#→3.75, G#→4.75, A#→5.75`); kept separate from
the source's `blackPositionInOctave` so the generated geometry can be
compared against the spec's constants. -/
def specSharpOffset : String → ℚ
  | "C#" => 0.75
  | "D#" => 1.75
  | "F#" => 3.75
  | "G#" => 4.75
  | "A#" => 5.75
  | _ => 0

/-! ## The tone engine

`HomeScreen` keeps three pieces of state that the tone engine touches:
the `lastNote` UI label, the `isWebSupported` capability flag, and the
lazily created audio context held in `audioContextRef`.  The context
itself is opaque; the state only records whether one exists.  A note
activation additionally emits a sequence of Web Audio API calls, which
the embedding records as a list of `AudioCommand`s; the frequency type
is a parameter `F` (instantiated with `ℝ` for real keys) and schedule
times are exact rationals. -/

/-- Host platform as the source observes it: a web platform either has
or lacks an `AudioContext` constructor; a non-web platform never
synthesizes sound. -/
inductive PlatformKind where
  | web (hasCtor : Bool)
  | native
deriving DecidableEq, Repr

/-- The component state the tone engine reads and writes:
`lastNote`/`isWebSupported` React state and whether
`audioContextRef.current` is non-null. -/
structure EngineUIState where
  lastNote : Option String := none
  isWebSupported : Bool := true
  audioContext : Bool := false
deriving DecidableEq, Repr

/-- Initial component state: no note played, `isWebSupported` starts
`true`, no audio context. -/
def initialState : EngineUIState := {}

/-- The source's `ensureAudioContext`: on a non-web platform return
null; otherwise create the context on first use (or mark the platform
unsupported when the constructor is missing) and set the capability
flag.  The boolean result records whether a context was returned. -/
def ensureAudioContext (p : PlatformKind) (s : EngineUIState) :
    EngineUIState × Bool :=
  match p with
  | .native => (s, false)
  | .web hasCtor =>
    if s.audioContext then
      ({ s with isWebSupported := true }, true)
    else if hasCtor then
      ({ s with audioContext := true, isWebSupported := true }, true)
    else
      ({ s with isWebSupported := false }, false)

/-- One Web Audio API call made by `playNote`, with frequency type `F`
and times in seconds. -/
inductive AudioCommand (F : Type) where
  | createOscillator
  | createGain
  | setOscType (waveform : String)
  | setOscFrequencyAtTime (frequency : F) (time : ℚ)
  | gainSetValueAtTime (value : ℚ) (time : ℚ)
  | gainExpRampToValueAtTime (value : ℚ) (time : ℚ)
  | connectOscToGain
  | connectGainToDestination
  | oscStart (time : ℚ)
  | oscStop (time : ℚ)
deriving DecidableEq, Repr

/-- `true` exactly on `createOscillator`. -/
def AudioCommand.isCreateOscillator {F : Type} : AudioCommand F → Bool
  | .createOscillator => true
  | _ => false

/-- `true` exactly on the two gain-automation calls. -/
def AudioCommand.isGainAutomation {F : Type} : AudioCommand F → Bool
  | .gainSetValueAtTime _ _ => true
  | .gainExpRampToValueAtTime _ _ => true
  | _ => false

/-- The Web Audio calls of `playNote` lines 194-209 of the source, in
program order: create the oscillator and gain nodes, select the sine
waveform, set the frequency, program the attack/decay envelope,
connect oscillator → gain → destination, start at `now` and stop at
`now + 0.6`. -/
def oscCommands {F : Type} (freq : F) (now : ℚ) : List (AudioCommand F) :=
  [.createOscillator,
   .createGain,
   .setOscType "sine",
   .setOscFrequencyAtTime freq now,
   .gainSetValueAtTime 0.001 now,
   .gainExpRampToValueAtTime 0.5 (now + 0.02),
   .gainExpRampToValueAtTime 0.001 (now + 0.6),
   .connectOscToGain,
   .connectGainToDestination,
   .oscStart now,
   .oscStop (now + 0.6)]

/-- The source's `playNote`, abstracted over the activated key's name
and frequency: record the activation in `lastNote`; on a non-web
platform stop; otherwise run `ensureAudioContext` and, when a context
is available, schedule the tone.  Returns the new state and the
emitted Web Audio calls. -/
def playNoteModel {F : Type} (p : PlatformKind) (keyName : String)
    (keyFreq : F) (now : ℚ) (s : EngineUIState) :
    EngineUIState × List (AudioCommand F) :=
  let s1 := { s with lastNote := some keyName }
  match p with
  | .native => (s1, [])
  | .web hasCtor =>
    let r := ensureAudioContext (.web hasCtor) s1
    if r.2 then (r.1, oscCommands keyFreq now) else (r.1, [])

/-- `playNote` on an actual generated key (frequency in `ℝ`). -/
noncomputable def playNote (p : PlatformKind) (key : PianoKey) (now : ℚ)
    (s : EngineUIState) : EngineUIState × List (AudioCommand ℝ) :=
  playNoteModel p key.name key.frequency now s

/-- The unmount cleanup effect (source lines 215-222): if a context
exists, close it and null the reference; otherwise do nothing.  The
boolean result records whether `close()` was invoked. -/
def shutdownModel (s : EngineUIState) : EngineUIState × Bool :=
  if s.audioContext then ({ s with audioContext := false }, true)
  else (s, false)

/-- A state in which the engine is Ready: a context exists. -/
def readyState : EngineUIState :=
  { lastNote := none, isWebSupported := true, audioContext := true }

/-- A state in which the engine is Unsupported: no context and the
capability flag is down. -/
def unsupportedState : EngineUIState :=
  { lastNote := none, isWebSupported := false, audioContext := false }

end Piano

namespace Piano

/-! ## Layout claims -/

/-- C1: every generated key's frequency is `440 * 2 ^ ((s - 69) / 12)`
where `s` is its stored MIDI index; at grid position
`12 * octaveIdx + noteIdx` the stored MIDI index is
`12 * (octave + 1) + noteIdx` and the label is `NOTE_ORDER[noteIdx]`;
the key at position 21 is `A4` with semitone index 69 and frequency
exactly 440, and the key at position 12 is `C4` with semitone index
60. -/
theorem claim1_frequency_formula :
    (∀ k ∈ buildPianoKeys,
      k.frequency = 440 * (2 : ℝ) ^ (((k.midi : ℝ) - 69) / 12))
    ∧ (∀ oIdx, oIdx < 3 → ∀ nIdx, nIdx < 12 →
        (buildPianoKeys.getD (12 * oIdx + nIdx) dummyKey).midi
          = 12 * ((OCTAVES.getD oIdx 0 : ℤ) + 1) + (nIdx : ℤ)
        ∧ (buildPianoKeys.getD (12 * oIdx + nIdx) dummyKey).label
          = NOTE_ORDER.getD nIdx "")
    ∧ (buildPianoKeys.getD 21 dummyKey).name = "A4"
    ∧ (buildPianoKeys.getD 21 dummyKey).midi = 69
    ∧ (buildPianoKeys.getD 21 dummyKey).frequency = 440
    ∧ (buildPianoKeys.getD 12 dummyKey).name = "C4"
    ∧ (buildPianoKeys.getD 12 dummyKey).midi = 60 := by
  refine ⟨fun k _ => rfl, by decide, by decide, by decide, ?_, by decide,
    by decide⟩
  show frequencyFromMidi (buildPianoKeys.getD 21 dummyKey).midi = 440
  have h : (buildPianoKeys.getD 21 dummyKey).midi = 69 := by decide
  rw [h]
  unfold frequencyFromMidi
  norm_num

/-- C1 witness: the formula instantiated at the first generated key. -/
theorem claim1_witness :
    (buildPianoKeys.getD 0 dummyKey).frequency
      = 440 * (2 : ℝ)
          ^ ((((buildPianoKeys.getD 0 dummyKey).midi : ℝ) - 69) / 12) :=
  claim1_frequency_formula.1 (buildPianoKeys.getD 0 dummyKey) (by decide)

/-- C2: the builder returns 36 keys — 21 natural, 15 raised — running
from `C3` to `B5` in generation order (octave-major,
pitch-class-minor). -/
theorem claim2_key_counts :
    buildPianoKeys.length = 36
    ∧ (buildPianoKeys.filter (fun k => !k.isSharp)).length = 21
    ∧ (buildPianoKeys.filter (fun k => k.isSharp)).length = 15
    ∧ (buildPianoKeys.getD 0 dummyKey).name = "C3"
    ∧ (buildPianoKeys.getD 35 dummyKey).name = "B5"
    ∧ buildPianoKeys.map (fun k => k.name)
      = ["C3", "C#3", "D3", "D#3", "E3", "F3", "F#3", "G3", "G#3",
         "A3", "A#3", "B3",
         "C4", "C#4", "D4", "D#4", "E4", "F4", "F#4", "G4", "G#4",
         "A4", "A#4", "B4",
         "C5", "C#5", "D5", "D#5", "E5", "F5", "F#5", "G5", "G#5",
         "A5", "A#5", "B5"] := by
  decide

/-- C3: the natural keys' `whiteIndex` values, in generation order,
are exactly `0, …, 20` (one shared counter, never reset), and
`whiteIndex` is present exactly on natural keys while
`positionInWhiteUnits` is present exactly on raised keys. -/
theorem claim3_whiteIndex_sequence :
    (buildPianoKeys.filter (fun k => !k.isSharp)).map
        (fun k => k.whiteIndex)
      = (List.range 21).map some
    ∧ (∀ k ∈ buildPianoKeys, k.whiteIndex.isSome = !k.isSharp)
    ∧ (∀ k ∈ buildPianoKeys, k.positionInWhiteUnits.isSome = k.isSharp) := by
  refine ⟨by decide, by decide, by decide⟩

/-- C3 witness: the field-presence invariants at the first key. -/
theorem claim3_witness :
    (buildPianoKeys.getD 0 dummyKey).whiteIndex.isSome
      = !(buildPianoKeys.getD 0 dummyKey).isSharp :=
  claim3_whiteIndex_sequence.2.1 (buildPianoKeys.getD 0 dummyKey) (by decide)

/-- C4: every raised key's `positionInWhiteUnits` is
`7 * octaveOrdinal + c` with `c` the spec's fixed constant for its
pitch class; in particular position 13 holds `C#4` with offset
`7.75`. -/
theorem claim4_blackOffset :
    buildPianoKeys.length = 36
    ∧ (∀ oIdx, oIdx < 3 → ∀ nIdx, nIdx < 12 →
        (buildPianoKeys.getD (12 * oIdx + nIdx) dummyKey).isSharp = true →
        (buildPianoKeys.getD (12 * oIdx + nIdx) dummyKey).positionInWhiteUnits
          = some (7 * (oIdx : ℚ)
              + specSharpOffset
                  (buildPianoKeys.getD (12 * oIdx + nIdx) dummyKey).label))
    ∧ (buildPianoKeys.getD 13 dummyKey).name = "C#4"
    ∧ (buildPianoKeys.getD 13 dummyKey).positionInWhiteUnits = some 7.75 := by
  with_unfolding_all exact of_decide_eq_true rfl

/-- C4 witness: the offset formula instantiated at `C#4`
(octave ordinal 1, pitch-class index 1). -/
theorem claim4_witness :
    (buildPianoKeys.getD (12 * 1 + 1) dummyKey).positionInWhiteUnits
      = some (7 * ((1 : ℕ) : ℚ)
          + specSharpOffset
              (buildPianoKeys.getD (12 * 1 + 1) dummyKey).label) :=
  claim4_blackOffset.2.1 1 (by decide) 1 (by decide)
    (by decide)

/-- `frequencyFromMidi` is strictly increasing in the MIDI number. -/
theorem frequencyFromMidi_strictMono {m m' : ℤ} (h : m < m') :
    frequencyFromMidi m < frequencyFromMidi m' := by
  unfold frequencyFromMidi
  have h1 : (m : ℝ) < (m' : ℝ) := by exact_mod_cast h
  have h2 : ((m : ℝ) - 69) / 12 < ((m' : ℝ) - 69) / 12 := by linarith
  have h3 : (2 : ℝ) ^ (((m : ℝ) - 69) / 12)
      < (2 : ℝ) ^ (((m' : ℝ) - 69) / 12) :=
    Real.rpow_lt_rpow_of_exponent_lt (by norm_num) h2
  exact mul_lt_mul_of_pos_left h3 (by norm_num)

/-- The MIDI numbers along the generated list are `48 + i`. -/
theorem buildPianoKeys_midi_getD :
    ∀ i, i < 36 → (buildPianoKeys.getD i dummyKey).midi = 48 + (i : ℤ) := by
  decide

/-- C5: along the returned sequence the frequency is strictly
monotonically increasing. -/
theorem claim5_frequency_strict_mono :
    ∀ i j, i < j → j < buildPianoKeys.length →
      (buildPianoKeys.getD i dummyKey).frequency
        < (buildPianoKeys.getD j dummyKey).frequency := by
  intro i j hij hj
  have hlen : buildPianoKeys.length = 36 := by decide
  rw [hlen] at hj
  have hi : i < 36 := lt_trans hij hj
  show frequencyFromMidi (buildPianoKeys.getD i dummyKey).midi
    < frequencyFromMidi (buildPianoKeys.getD j dummyKey).midi
  rw [buildPianoKeys_midi_getD i hi, buildPianoKeys_midi_getD j hj]
  exact frequencyFromMidi_strictMono (by omega)

/-- C5 witness: the first two keys are in strictly increasing
frequency order. -/
theorem claim5_witness :
    0 < 1 ∧ 1 < buildPianoKeys.length
    ∧ (buildPianoKeys.getD 0 dummyKey).frequency
        < (buildPianoKeys.getD 1 dummyKey).frequency :=
  ⟨by decide, by decide, claim5_frequency_strict_mono 0 1 (by decide)
    (by decide)⟩

end Piano

namespace Piano

/-! ## Tone-engine claims -/

/-- C6 (amended): the engine admits the transitions
Uninitialized → Ready (first activation on a supporting web platform),
Uninitialized → Unsupported (first activation without an
`AudioContext` constructor), Ready → Disposed (shutdown closes and
clears the handle) and Unsupported → Disposed (shutdown without a
handle is a no-op); a second shutdown, or a shutdown when never
initialized, is a no-op.  However the code does not record disposal:
shutdown only nulls the context reference, so a later activation on a
supporting web platform re-creates the handle instead of being a
no-op. -/
theorem claim6_engine_transitions :
    (∀ (F : Type) (name : String) (f : F) (t : ℚ) (s : EngineUIState),
      s.audioContext = false →
      (playNoteModel (.web true) name f t s).1
        = { s with lastNote := some name, isWebSupported := true,
                   audioContext := true })
    ∧ (∀ (F : Type) (name : String) (f : F) (t : ℚ) (s : EngineUIState),
      s.audioContext = false →
      playNoteModel (.web false) name f t s
        = ({ s with lastNote := some name, isWebSupported := false }, []))
    ∧ (∀ s : EngineUIState, s.audioContext = true →
      shutdownModel s = ({ s with audioContext := false }, true))
    ∧ (∀ s : EngineUIState, s.audioContext = false →
      shutdownModel s = (s, false))
    ∧ (∀ s : EngineUIState,
      shutdownModel (shutdownModel s).1 = ((shutdownModel s).1, false))
    ∧ shutdownModel initialState = (initialState, false)
    ∧ (∀ (F : Type) (name : String) (f : F) (t : ℚ) (s : EngineUIState),
      (playNoteModel (.web true) name f t (shutdownModel s).1).1.audioContext
        = true) := by
  refine ⟨?_, ?_, ?_, ?_, ?_, ?_, ?_⟩
  · intro F name f t s h
    simp [playNoteModel, ensureAudioContext, h]
  · intro F name f t s h
    simp [playNoteModel, ensureAudioContext, h]
  · intro s h
    simp [shutdownModel, h]
  · intro s h
    simp [shutdownModel, h]
  · intro s
    by_cases h : s.audioContext
    · simp [shutdownModel, h]
    · simp [shutdownModel, h]
  · rfl
  · intro F name f t s
    by_cases h : s.audioContext
    · simp [shutdownModel, playNoteModel, ensureAudioContext, h]
    · simp [shutdownModel, playNoteModel, ensureAudioContext, h]

/-- C6 witness: the Uninitialized → Ready transition at the initial
state. -/
theorem claim6_witness :
    initialState.audioContext = false
    ∧ (playNoteModel (.web true) "C4" (262 : ℚ) 0 initialState).1
      = { initialState with lastNote := some "C4", isWebSupported := true,
                            audioContext := true } :=
  ⟨rfl, claim6_engine_transitions.1 ℚ "C4" 262 0 initialState rfl⟩

/-- C6 counterexample: the claim that no transition leaves Disposed
fails on the code.  Play a note, shut the engine down, then play
again: the second activation re-creates the audio context, so the
post-shutdown state changes (it is not a no-op). -/
theorem claim6_counterexample :
    (playNoteModel (.web true) "C4" (262 : ℚ) 1
        (shutdownModel
          (playNoteModel (.web true) "C4" (262 : ℚ) 0 initialState).1).1).1.audioContext
      = true
    ∧ (shutdownModel
        (playNoteModel (.web true) "C4" (262 : ℚ) 0 initialState).1).1.audioContext
      = false
    ∧ (playNoteModel (.web true) "C4" (262 : ℚ) 1
        (shutdownModel
          (playNoteModel (.web true) "C4" (262 : ℚ) 0 initialState).1).1).1
      ≠ (shutdownModel
          (playNoteModel (.web true) "C4" (262 : ℚ) 0 initialState).1).1 := by
  refine ⟨rfl, rfl, ?_⟩
  decide

/-- C7: with the engine Ready, activating a key with frequency `f` at
time `t0` leaves the engine state unchanged apart from recording the
note (the scheduled generator is not tracked), and the emitted Web
Audio calls create exactly one oscillator, of sine type, at frequency
`f` from `t0`, with a gain envelope set to `0.001` at `t0`, ramped
exponentially to `0.5` at `t0 + 0.02` and back to `0.001` at
`t0 + 0.6`, the oscillator being stopped at `t0 + 0.6`. -/
theorem claim7_ready_schedule :
    ∀ (hasCtor : Bool) (key : PianoKey) (t0 : ℚ) (s : EngineUIState),
      s.audioContext = true →
      (playNote (.web hasCtor) key t0 s).1
          = { s with lastNote := some key.name, isWebSupported := true }
      ∧ ((playNote (.web hasCtor) key t0 s).2.filter
            (fun c => c.isCreateOscillator)).length = 1
      ∧ AudioCommand.setOscType "sine" ∈ (playNote (.web hasCtor) key t0 s).2
      ∧ AudioCommand.setOscFrequencyAtTime key.frequency t0
          ∈ (playNote (.web hasCtor) key t0 s).2
      ∧ (playNote (.web hasCtor) key t0 s).2.filter
            (fun c => c.isGainAutomation)
          = [AudioCommand.gainSetValueAtTime 0.001 t0,
             AudioCommand.gainExpRampToValueAtTime 0.5 (t0 + 0.02),
             AudioCommand.gainExpRampToValueAtTime 0.001 (t0 + 0.6)]
      ∧ AudioCommand.oscStart t0 ∈ (playNote (.web hasCtor) key t0 s).2
      ∧ AudioCommand.oscStop (t0 + 0.6) ∈ (playNote (.web hasCtor) key t0 s).2 := by
  intro hasCtor key t0 s h
  have hp : playNote (.web hasCtor) key t0 s
      = ({ s with lastNote := some key.name, isWebSupported := true },
         oscCommands key.frequency t0) := by
    simp [playNote, playNoteModel, ensureAudioContext, h]
  rw [hp]
  refine ⟨rfl, rfl, ?_, ?_, rfl, ?_, ?_⟩
  · simp [oscCommands]
  · simp [oscCommands]
  · simp [oscCommands]
  · simp [oscCommands]

/-- C7 witness: the Ready-state schedule at a concrete key, time `0`
and `readyState`. -/
theorem claim7_witness :
    (playNote (.web true) dummyKey 0 readyState).1
        = { readyState with lastNote := some dummyKey.name,
                            isWebSupported := true }
    ∧ ((playNote (.web true) dummyKey 0 readyState).2.filter
          (fun c => c.isCreateOscillator)).length = 1
    ∧ AudioCommand.setOscType "sine" ∈ (playNote (.web true) dummyKey 0 readyState).2
    ∧ AudioCommand.setOscFrequencyAtTime dummyKey.frequency 0
        ∈ (playNote (.web true) dummyKey 0 readyState).2
    ∧ (playNote (.web true) dummyKey 0 readyState).2.filter
          (fun c => c.isGainAutomation)
        = [AudioCommand.gainSetValueAtTime 0.001 0,
           AudioCommand.gainExpRampToValueAtTime 0.5 (0 + 0.02),
           AudioCommand.gainExpRampToValueAtTime 0.001 (0 + 0.6)]
    ∧ AudioCommand.oscStart 0 ∈ (playNote (.web true) dummyKey 0 readyState).2
    ∧ AudioCommand.oscStop (0 + 0.6)
        ∈ (playNote (.web true) dummyKey 0 readyState).2 :=
  claim7_ready_schedule true dummyKey 0 readyState rfl

/-- C8: activating a key on a non-web platform, or on a web platform
without audio support, raises no error (the model is a total
function), emits no Web Audio calls, records the activation in
`lastNote`, and surfaces the missing capability only through the
`isWebSupported` flag; in the Unsupported state the flag is already
down, so `lastNote` is the only change. -/
theorem claim8_unsupported_activation :
    (∀ (key : PianoKey) (t : ℚ) (s : EngineUIState),
      playNote .native key t s = ({ s with lastNote := some key.name }, []))
    ∧ (∀ (key : PianoKey) (t : ℚ) (s : EngineUIState),
      s.audioContext = false →
      playNote (.web false) key t s
        = ({ s with lastNote := some key.name, isWebSupported := false }, []))
    ∧ (∀ (key : PianoKey) (t : ℚ) (s : EngineUIState),
      s.audioContext = false → s.isWebSupported = false →
      playNote (.web false) key t s
        = ({ s with lastNote := some key.name }, [])) := by
  refine ⟨?_, ?_, ?_⟩
  · intro key t s
    rfl
  · intro key t s h
    simp [playNote, playNoteModel, ensureAudioContext, h]
  · intro key t s h hw
    cases s
    simp_all [playNote, playNoteModel, ensureAudioContext]

/-- C8 witness: a native-platform activation and an Unsupported-state
activation at concrete inputs. -/
theorem claim8_witness :
    playNote .native dummyKey 0 unsupportedState
      = ({ unsupportedState with lastNote := some dummyKey.name }, [])
    ∧ playNote (.web false) dummyKey 0 unsupportedState
      = ({ unsupportedState with lastNote := some dummyKey.name }, []) :=
  ⟨claim8_unsupported_activation.1 dummyKey 0 unsupportedState,
   claim8_unsupported_activation.2.2 dummyKey 0 unsupportedState rfl rfl⟩

/-- C10: `blackPositionInOctave` is a total function on strings and
returns `0` for every input that is not one of the five raised-key
names. -/
theorem claim10_blackPosition_default :
    ∀ step : String, step ∉ ["C#", "D#", "F#", "G#", "A#"] →
      blackPositionInOctave step = 0 := by
  intro step h
  simp only [List.mem_cons, List.not_mem_nil, or_false, not_or] at h
  obtain ⟨h1, h2, h3, h4, h5⟩ := h
  simp [blackPositionInOctave, h1, h2, h3, h4, h5]

/-- C10 witness: the natural-key name `E` falls through to `0`. -/
theorem claim10_witness :
    "E" ∉ ["C#", "D#", "F#", "G#", "A#"]
    ∧ blackPositionInOctave "E" = 0 :=
  ⟨by decide, claim10_blackPosition_default "E" (by decide)⟩

end Piano
